import Mathlib

/-!
Verification development for the VinaScreen batch docking script
(src/VinaScreen.py).  The script prompts for six grid-box parameters,
opens a results CSV, writes a header, then loops over the ligand
directory: for each file ending in ".pdbqt" whose name does not contain
"_docked" it runs the external vina tool, extracts the rank-1 affinity
from the tool's text output with the regular expression
  caret backslash-s star 1 backslash-s plus ( [-\d.]+ )
in MULTILINE mode, and appends a row to the CSV, flushing and fsyncing
after every row.  Numeric values are modelled exactly as rationals.
-/

namespace VinaScreen

/-- Characters matched by Python's whitespace class (ASCII range); used both
by the regular-expression model and by the model of str.strip / float(). -/
def isPySpace (c : Char) : Bool :=
  c == ' ' || c == '\t' || c == '\n' || c == '\r' || c == '\x0b' || c == '\x0c'

/-- Strip leading and trailing whitespace from a character list
(model of Python str.strip with no arguments, ASCII range). -/
def stripWs (cs : List Char) : List Char :=
  ((cs.dropWhile isPySpace).reverse.dropWhile isPySpace).reverse

/-- Model of Python str.strip on strings. -/
def pyStrip (s : String) : String :=
  String.mk (stripWs s.data)

/-- Boolean list-prefix test on characters. -/
def isPrefixL : List Char → List Char → Bool
  | [], _ => true
  | _ :: _, [] => false
  | a :: as, b :: bs => a == b && isPrefixL as bs

/-- Substring containment test: model of the Python expression
needle in hay (used for the filter marker test on line 112). -/
def pySubstr (needle : List Char) : List Char → Bool
  | [] => isPrefixL needle []
  | c :: t => isPrefixL needle (c :: t) || pySubstr needle t

/-- Model of Python str.endswith (line 112). -/
def pyEndsWith (s suffix : String) : Bool :=
  suffix.data.isSuffixOf s.data

/-- The accepted ligand extension (line 112 of the source). -/
def pdbqtExt : String := ".pdbqt"

/-- The output-marker substring excluded by discovery (line 112 of the source). -/
def dockedMarker : List Char := "_docked".data

/-- Work discovery filter (lines 111-112): keep directory entries ending in
".pdbqt" whose name does not contain "_docked". -/
def filterLigs (es : List String) : List String :=
  es.filter (fun l => pyEndsWith l pdbqtExt && !(pySubstr dockedMarker l.data))

/-- Root part of os.path.splitext for a bare file name (line 115):
split at the last dot, unless every character before that dot is a dot
(so a leading-dot name such as ".pdbqt" is not split). -/
def splitextRoot (s : String) : String :=
  match s.data.reverse.findIdx? (fun c => c == '.') with
  | none => s
  | some i =>
    let d := s.data.length - 1 - i
    if (s.data.take d).all (fun c => c == '.') then s
    else String.mk (s.data.take d)

/-- Characters matched by the capture class [-\d.] of the score regex
(line 143). -/
def isGroupChar (c : Char) : Bool :=
  c == '-' || c == '.' || c.isDigit

/-- Deterministic match of the pattern backslash-s star, literal 1,
backslash-s plus, capture of [-\d.]+ at one position of the text.
All three character classes are pairwise disjoint with the literal 1,
so greedy matching without backtracking is exact here. -/
def matchAt (l : List Char) : Option (List Char) :=
  match l.dropWhile isPySpace with
  | '1' :: rest =>
    if (rest.takeWhile isPySpace).isEmpty then none
    else
      let g := (rest.dropWhile isPySpace).takeWhile isGroupChar
      if g.isEmpty then none else some g
  | _ => none

/-- Leftmost MULTILINE search for the pattern of line 143: the anchor caret
restricts match starts to the beginning of the text or positions right
after a newline; positions are tried left to right (model of re.search
with re.MULTILINE). -/
def regexSearch1 : Bool → List Char → Option (List Char)
  | _, [] => none
  | atStart, c :: t =>
    if atStart then
      match matchAt (c :: t) with
      | some g => some g
      | none => regexSearch1 (c == '\n') t
    else regexSearch1 (c == '\n') t

/-- Extraction of the first capture group of the first match of the score
regular expression over the raw tool output (line 143). -/
def extractGroup (out : String) : Option String :=
  (regexSearch1 true out.data).map (fun g => String.mk g)

/-- Consume the continuation of a Python digit part: further digits with
single underscores allowed only between digits; returns the unconsumed
rest of the input. -/
def digitRunCont : List Char → List Char
  | [] => []
  | c :: rest =>
    if c.isDigit then digitRunCont rest
    else if c == '_' then
      match rest with
      | [] => c :: rest
      | d :: r2 => if d.isDigit then digitRunCont r2 else c :: rest
    else c :: rest

/-- Consume a Python digit part (at least one digit, underscores only
between digits); none when the input does not start with a digit. -/
def digitRun? (cs : List Char) : Option (List Char) :=
  match cs with
  | c :: rest => if c.isDigit then some (digitRunCont rest) else none
  | [] => none

/-- Check an exponent after the letter e: optional sign then a digit part
consuming the whole rest. -/
def expTail (cs : List Char) : Bool :=
  let cs2 := match cs with
    | '+' :: r => r
    | '-' :: r => r
    | _ => cs
  match digitRun? cs2 with
  | some [] => true
  | _ => false

/-- Check an optional exponent part terminating the literal. -/
def checkExpPart (cs : List Char) : Bool :=
  match cs with
  | [] => true
  | c :: rest => (c == 'e' || c == 'E') && expTail rest

/-- Check an unsigned numeric float literal: digit part with optional
fraction, or a fraction starting with a dot, each followed by an optional
exponent. -/
def checkNumber (cs : List Char) : Bool :=
  match digitRun? cs with
  | some rest =>
    match rest with
    | '.' :: r2 =>
      (match digitRun? r2 with
       | some r3 => checkExpPart r3
       | none => checkExpPart r2)
    | _ => checkExpPart rest
  | none =>
    match cs with
    | '.' :: r2 =>
      (match digitRun? r2 with
       | some r3 => checkExpPart r3
       | none => false)
    | _ => false

/-- Model of the acceptance domain of Python's float() builtin on a string
(lines 80 and 145): strip whitespace, optional sign, then inf, infinity,
nan (case-insensitive) or a numeric literal. -/
def pyFloatAccepts (s : String) : Bool :=
  let cs := stripWs s.data
  let body := match cs with
    | '+' :: r => r
    | '-' :: r => r
    | _ => cs
  let low := body.map Char.toLower
  !body.isEmpty &&
    (low == "inf".data || low == "infinity".data || low == "nan".data ||
      checkNumber body)

/-- Value of a list of decimal digits. -/
def digitsVal (cs : List Char) : Nat :=
  cs.foldl (fun a c => a * 10 + (c.toNat - 48)) 0

/-- Exact rational value of an accepted finite numeric float literal
(sign, integer part, fraction, optional exponent; underscores ignored).
Only meaningful on strings accepted by pyFloatAccepts that are not
inf or nan; in the script it is only ever applied to capture groups of
the score regex, whose characters are restricted to [-\d.]. -/
def pyFloatVal (s : String) : ℚ :=
  let cs := (stripWs s.data).filter (fun c => !(c == '_'))
  let sgn : Int := match cs with
    | '-' :: _ => -1
    | _ => 1
  let body := match cs with
    | '-' :: r => r
    | '+' :: r => r
    | _ => cs
  let mant := body.takeWhile (fun c => !(c == 'e' || c == 'E'))
  let expPart := body.drop (mant.length + 1)
  let eNeg : Bool := match expPart with
    | '-' :: _ => true
    | _ => false
  let eBody := match expPart with
    | '-' :: r => r
    | '+' :: r => r
    | _ => expPart
  let eMag := digitsVal (eBody.filter Char.isDigit)
  let ip := mant.takeWhile (fun c => !(c == '.'))
  let fp := (mant.drop (ip.length + 1)).filter Char.isDigit
  let mantNum : Int :=
    sgn * (digitsVal (ip.filter Char.isDigit) * 10 ^ fp.length + digitsVal fp : Nat)
  if eNeg then mkRat mantNum (10 ^ fp.length * 10 ^ eMag)
  else mkRat (mantNum * (10 ^ eMag : Nat)) (10 ^ fp.length)

/-- Outcome tag of one ligand's committed cell: a numeric score, the
"N/A" marker, or the "Error" marker. -/
inductive Cell
  | score (q : ℚ)
  | na
  | error
deriving DecidableEq, Repr

/-- Result of one invocation of the external vina tool (line 135):
exit code zero with captured output, or a non-zero exit code raising
CalledProcessError, carrying the code and any captured output. -/
inductive ToolRun
  | ok (out : String)
  | err (code : Int) (out : String)

/-- Value written into one CSV cell: a string, or a numeric value written
as the float object (the csv module stringifies it on output). -/
inductive CellVal
  | str (s : String)
  | num (q : ℚ)
deriving DecidableEq, Repr

/-- Event on the results CSV file: a row write, a flush, or an fsync. -/
inductive CsvEvent
  | write (cells : List CellVal)
  | flush
  | fsync
deriving DecidableEq, Repr

/-- Debug-log events, one constructor per write_debug call site reached
from the CSV block of the script (lines 97-171). -/
inductive LogEvent
  | csvHeaderWritten
  | dirMissing
  | processing (nm : String)
  | vinaOk (nm : String)
  | writtenScore (nm : String) (q : ℚ)
  | noScore (nm : String)
  | dockingError (nm : String) (code : Int)
  | processedCount (n : Nat)
  | csvWriteError
  | unexpectedError
  | scriptCompleted
deriving DecidableEq, Repr

/-- CSV cell written for one ligand's outcome (lines 146, 152, 160). -/
def cellToVal : Cell → CellVal
  | .score q => .num q
  | .na => .str "N/A"
  | .error => .str "Error"

/-- Header cells written on line 100 of the source. -/
def headerCells : List CellVal := [.str "Ligand", .str "Best Affinity"]

/-- Events produced by committing one row: write, flush, fsync
(each row write is followed immediately by csvfile.flush() and
os.fsync, lines 146-148, 152-154, 160-162). -/
def rowEvents (nm : String) (c : Cell) : List CsvEvent :=
  [.write [.str nm, cellToVal c], .flush, .fsync]

/-- Cell committed for one tool run, none when the run aborts the batch:
a non-zero exit commits "Error"; a zero exit with no regex match commits
"N/A"; a zero exit with a match commits the parsed score when the capture
is a valid float literal, and otherwise float() raises ValueError, which
no handler inside the loop catches (lines 134-162). -/
def cellOf? : ToolRun → Option Cell
  | .err _ _ => some .error
  | .ok out =>
    match extractGroup out with
    | none => some .na
    | some g => if pyFloatAccepts g then some (.score (pyFloatVal g)) else none

/-- Debug-log events emitted while processing one ligand, including the
events already emitted before an aborting ValueError (the success line of
line 136 is logged before the regex match is attempted). -/
def itemLogs (nm : String) : ToolRun → List LogEvent
  | .err code _ => [.processing nm, .dockingError nm code]
  | .ok out =>
    match extractGroup out with
    | none => [.processing nm, .vinaOk nm, .noScore nm]
    | some g =>
      if pyFloatAccepts g then
        [.processing nm, .vinaOk nm, .writtenScore nm (pyFloatVal g)]
      else [.processing nm, .vinaOk nm]

/-- Accumulated effects of the ligand loop (lines 110-162). -/
structure LoopOut where
  rows : List (String × Cell)
  csv : List CsvEvent
  logs : List LogEvent
  aborted : Bool
  count : Nat
deriving Repr

/-- The ligand loop (lines 111-162) over the already-filtered entries:
each item is named by splitextRoot, processed once in order; an aborting
item (unhandled ValueError from float()) stops the loop at once, with no
row for it and none for the remaining items. -/
def runLoop : List String → (String → ToolRun) → LoopOut
  | [], _ => { rows := [], csv := [], logs := [], aborted := false, count := 0 }
  | lig :: rest, tool =>
    let nm := splitextRoot lig
    match cellOf? (tool lig) with
    | none =>
      { rows := [], csv := [], logs := itemLogs nm (tool lig),
        aborted := true, count := 1 }
    | some c =>
      let o := runLoop rest tool
      { rows := (nm, c) :: o.rows,
        csv := rowEvents nm c ++ o.csv,
        logs := itemLogs nm (tool lig) ++ o.logs,
        aborted := o.aborted,
        count := o.count + 1 }

/-- Environment of one batch run: whether opening the results CSV
succeeds, whether the ligand directory exists, the raw directory listing,
and the outcome of running the tool on each listed file. -/
structure Env where
  csvOpenOk : Bool
  dirExists : Bool
  entries : List String
  tool : String → ToolRun

/-- Observable result of the batch block (lines 97-171): CSV event trace,
committed data rows, debug-log events, and the process exit code. -/
structure MainResult where
  csv : List CsvEvent
  rows : List (String × Cell)
  logs : List LogEvent
  exitCode : Nat
deriving Repr

/-- The header row commit at batch start (lines 100-102). -/
def headerBlock : List CsvEvent := [.write headerCells, .flush, .fsync]

/-- The batch block of the script (lines 97-171).  Opening the CSV fails
with IOError: the except clause on line 166 logs it and falls through to
the final completion log on line 171, exiting zero.  A missing ligand
directory is logged and sys.exit(1) raises SystemExit, which neither
except IOError nor except Exception catches, so the process exits 1 and
line 171 is never reached.  Otherwise the ligand loop runs; an unhandled
ValueError from float() is caught by except Exception on line 168, logged,
and followed by the completion log, exiting zero. -/
def pyMain (env : Env) : MainResult :=
  if env.csvOpenOk then
    if env.dirExists then
      let o := runLoop (filterLigs env.entries) env.tool
      if o.aborted then
        { csv := headerBlock ++ o.csv,
          rows := o.rows,
          logs := .csvHeaderWritten ::
            (o.logs ++ [.unexpectedError, .scriptCompleted]),
          exitCode := 0 }
      else
        { csv := headerBlock ++ o.csv,
          rows := o.rows,
          logs := .csvHeaderWritten ::
            (o.logs ++ [.processedCount o.count, .scriptCompleted]),
          exitCode := 0 }
    else
      { csv := headerBlock, rows := [],
        logs := [.csvHeaderWritten, .dirMissing], exitCode := 1 }
  else
    { csv := [], rows := [],
      logs := [.csvWriteError, .scriptCompleted], exitCode := 0 }

/-- Return path of one grid-parameter prompt: the silent default (the
source returns the string "0.0" on blank input, line 77) or a parsed
value carrying the raw accepted input (the source returns
str(float(raw)), line 80; float-to-string formatting itself is not
modelled). -/
inductive GridValue
  | defaultZero
  | parsed (raw : String)
deriving DecidableEq, Repr

/-- The prompt loop of get_grid_coordinate (lines 73-82), driven by the
successive strings the operator types: blank (after stripping) input
returns the default at once; a valid float literal returns a parsed
value; anything else prints a rejection message and re-prompts.  none
models the loop never returning because the input stream runs out. -/
def get_grid_coordinate : List String → Option GridValue
  | [] => none
  | s :: rest =>
    if pyStrip s = "" then some .defaultZero
    else if pyFloatAccepts s then some (.parsed s)
    else get_grid_coordinate rest

/-- Tool stub whose output never matters (used for runs that end before or
without invoking the tool). -/
def toolConstOk : String → ToolRun := fun _ => ToolRun.ok ""

/-- Run in which opening the results CSV raises IOError. -/
def envCsvFail : Env := ⟨false, true, [], toolConstOk⟩

/-- Run in which the ligand directory is missing. -/
def envDirMissing : Env := ⟨true, false, [], toolConstOk⟩

/-- Run with an empty ligand directory: only the header is committed. -/
def envHeaderOnly : Env := ⟨true, true, [], toolConstOk⟩

/-- Tool behaviour of the end-to-end scenario: the first ligand docks with
best affinity -8.2, the second makes the tool exit non-zero. -/
def toolTwoGood (l : String) : ToolRun :=
  if l = "lig1.pdbqt" then .ok "1    -8.2   0.000   0.000\n"
  else .err 1 "tool crashed"

/-- Environment of the end-to-end scenario. -/
def envTwoGood : Env := ⟨true, true, ["lig1.pdbqt", "lig2.pdbqt"], toolTwoGood⟩

/-- Tool behaviour where the second ligand's output matches the score regex
with the capture "-", which float() rejects. -/
def toolAbort (l : String) : ToolRun :=
  if l = "lig1.pdbqt" then .ok "1 -7.4\n"
  else if l = "lig2.pdbqt" then .ok "1 -\n"
  else .ok "1 -6.0\n"

/-- Environment in which the second of three ligands aborts the loop. -/
def envAbort : Env :=
  ⟨true, true, ["lig1.pdbqt", "lig2.pdbqt", "lig3.pdbqt"], toolAbort⟩

/-- Tool run whose output contains no line matching the score regex. -/
def toolNoMatch : String → ToolRun :=
  fun _ => ToolRun.ok "WARNING: output format unexpected\n"

/-- Environment with one ligand whose output is unparseable. -/
def envNoMatch : Env := ⟨true, true, ["ligX.pdbqt"], toolNoMatch⟩

/-- Representative vina output whose rank-1 line carries affinity -7.4. -/
def vinaSampleOut : String :=
  "mode |   affinity | dist from best mode\n-----+------------+----------\n1    -7.4   0.000   0.000\n2    -7.1   1.503   2.117\n"

/-- Shape invariant of the CSV event trace: a sequence of committed blocks,
each a row write immediately followed by a flush and an fsync. -/
inductive ChainOK : List CsvEvent → Prop
  | nil : ChainOK []
  | block (cells : List CellVal) (rest : List CsvEvent) :
      ChainOK rest → ChainOK (.write cells :: .flush :: .fsync :: rest)

theorem chainOK_get {t : List CsvEvent} (h : ChainOK t) :
    ∀ (k : Nat) (cells : List CellVal), t.get? k = some (.write cells) →
      t.get? (k + 1) = some CsvEvent.flush ∧
      t.get? (k + 2) = some CsvEvent.fsync := by
  induction h with
  | nil => intro k cells hk; simp [List.get?] at hk
  | block cs rest _ ih =>
    intro k cells hk
    match k with
    | 0 => simp [List.get?]
    | 1 => simp [List.get?] at hk
    | 2 => simp [List.get?] at hk
    | n + 3 =>
      have := ih n cells (by simpa [List.get?] using hk)
      simpa [List.get?] using this

theorem runLoop_chainOK (tool : String → ToolRun) :
    ∀ items : List String, ChainOK (runLoop items tool).csv := by
  intro items
  induction items with
  | nil => exact ChainOK.nil
  | cons lig rest ih =>
    cases h : cellOf? (tool lig) with
    | none => simp [runLoop, h]; exact ChainOK.nil
    | some c =>
      simp only [runLoop, h, rowEvents, List.cons_append, List.nil_append]
      exact ChainOK.block _ _ ih

theorem pyMain_chainOK (env : Env) : ChainOK (pyMain env).csv := by
  rcases env with ⟨co, de, es, tl⟩
  cases co with
  | false => simpa [pyMain] using ChainOK.nil
  | true =>
    cases de with
    | false =>
      simpa [pyMain, headerBlock] using ChainOK.block headerCells [] ChainOK.nil
    | true =>
      have hloop := runLoop_chainOK tl (filterLigs es)
      cases hab : (runLoop (filterLigs es) tl).aborted <;>
        simpa [pyMain, hab, headerBlock] using ChainOK.block headerCells _ hloop

theorem runLoop_rows_get? (tool : String → ToolRun) :
    ∀ (items : List String) (k : Nat) (nm : String) (c : Cell),
      (runLoop items tool).rows.get? k = some (nm, c) →
      ∃ lig, items.get? k = some lig ∧ nm = splitextRoot lig ∧
        cellOf? (tool lig) = some c := by
  intro items
  induction items with
  | nil => intro k nm c hk; simp [runLoop, List.get?] at hk
  | cons lig rest ih =>
    intro k nm c hk
    cases h : cellOf? (tool lig) with
    | none => simp [runLoop, h, List.get?] at hk
    | some c0 =>
      simp only [runLoop, h] at hk
      match k with
      | 0 =>
        simp [List.get?] at hk
        exact ⟨lig, by simp [List.get?], hk.1.symm, by rw [h, hk.2]⟩
      | n + 1 =>
        have := ih n nm c (by simpa [List.get?] using hk)
        simpa [List.get?] using this

theorem runLoop_rows_total (tool : String → ToolRun) :
    ∀ items : List String,
      (∀ l ∈ items, (cellOf? (tool l)).isSome = true) →
      (runLoop items tool).rows.map Prod.fst = items.map splitextRoot := by
  intro items
  induction items with
  | nil => intro _; simp [runLoop]
  | cons lig rest ih =>
    intro h
    obtain ⟨c, hc⟩ := Option.isSome_iff_exists.mp (h lig (by simp))
    simp only [runLoop, hc, List.map_cons]
    exact congrArg _ (ih fun l hl => h l (by simp [hl]))

theorem runLoop_csv_no_header (tool : String → ToolRun) :
    ∀ items : List String, ∀ e ∈ (runLoop items tool).csv,
      e ≠ CsvEvent.write headerCells := by
  intro items
  induction items with
  | nil => intro e he; simp [runLoop] at he
  | cons lig rest ih =>
    intro e he
    cases h : cellOf? (tool lig) with
    | none => simp [runLoop, h] at he
    | some c =>
      simp only [runLoop, h, rowEvents, List.cons_append, List.nil_append,
        List.mem_cons] at he
      rcases he with he | he | he | he
      · subst he
        cases c <;> simp [cellToVal, headerCells]
      · simp [he]
      · simp [he]
      · exact ih e he

theorem headerBlock_once (rest : List CsvEvent)
    (hrest : ∀ e ∈ rest, e ≠ CsvEvent.write headerCells) :
    (headerBlock ++ rest).get? 0 = some (CsvEvent.write headerCells) ∧
    ∀ k, k ≠ 0 →
      (headerBlock ++ rest).get? k ≠ some (CsvEvent.write headerCells) := by
  constructor
  · simp [headerBlock]
  · intro k hk
    match k with
    | 0 => exact absurd rfl hk
    | 1 => simp [headerBlock, List.get?]
    | 2 => simp [headerBlock, List.get?]
    | n + 3 =>
      simp only [headerBlock, List.cons_append, List.nil_append, List.get?]
      intro hcontra
      exact hrest _ (List.get?_mem hcontra) rfl

theorem pyMain_rows_get? (env : Env) (k : Nat) (nm : String) (c : Cell)
    (h : (pyMain env).rows.get? k = some (nm, c)) :
    ∃ lig, (filterLigs env.entries).get? k = some lig ∧
      nm = splitextRoot lig ∧ cellOf? (env.tool lig) = some c := by
  rcases env with ⟨co, de, es, tl⟩
  cases co with
  | false => simp [pyMain, List.get?] at h
  | true =>
    cases de with
    | false => simp [pyMain, List.get?] at h
    | true =>
      have h' : (runLoop (filterLigs es) tl).rows.get? k = some (nm, c) := by
        cases hab : (runLoop (filterLigs es) tl).aborted <;>
          simpa [pyMain, hab] using h
      exact runLoop_rows_get? tl (filterLigs es) k nm c h'

theorem cellOf?_tier (run : ToolRun) (c : Cell) (h : cellOf? run = some c) :
    (∀ code out, run = .err code out → c = .error) ∧
    (∀ out, run = .ok out → extractGroup out = none → c = .na) ∧
    (∀ out g, run = .ok out → extractGroup out = some g →
      pyFloatAccepts g = true ∧ c = .score (pyFloatVal g)) := by
  cases run with
  | err code out =>
    simp only [cellOf?, Option.some.injEq] at h
    refine ⟨?_, ?_, ?_⟩
    · intro _ _ _
      exact h.symm
    · intro out' h' _
      exact ToolRun.noConfusion h'
    · intro out' g h' _
      exact ToolRun.noConfusion h'
  | ok out =>
    cases hg : extractGroup out with
    | none =>
      simp only [cellOf?, hg, Option.some.injEq] at h
      refine ⟨?_, ?_, ?_⟩
      · intro _ _ h'
        exact ToolRun.noConfusion h'
      · intro out' h' _
        exact h.symm
      · intro out' g h' hg'
        injection h' with h2
        subst h2
        rw [hg] at hg'
        exact Option.noConfusion hg'
    | some g0 =>
      cases hacc : pyFloatAccepts g0 with
      | false => simp [cellOf?, hg, hacc] at h
      | true =>
        simp only [cellOf?, hg, hacc, if_true, Option.some.injEq] at h
        refine ⟨?_, ?_, ?_⟩
        · intro _ _ h'
          exact ToolRun.noConfusion h'
        · intro out' h' hg'
          injection h' with h2
          subst h2
          rw [hg] at hg'
          exact Option.noConfusion hg'
        · intro out' g h' hg'
          injection h' with h2
          subst h2
          rw [hg] at hg'
          injection hg' with h3
          subst h3
          exact ⟨hacc, h.symm⟩

/-- Claim C1, counterexample: when opening the results CSV fails, the
process exits zero (the claim says non-zero) and the final log line is the
completion message of line 171, not the failure message of line 167. -/
theorem C1_csv_failure_counterexample :
    (pyMain envCsvFail).exitCode = 0 ∧
    (pyMain envCsvFail).logs.getLast? = some LogEvent.scriptCompleted ∧
    LogEvent.csvWriteError ∈ (pyMain envCsvFail).logs ∧
    (pyMain envCsvFail).logs.getLast? ≠ some LogEvent.csvWriteError := by
  decide

/-- Claim C1, amended: if the results table cannot be opened, the batch
aborts with no header and no rows, the failure is logged, but it is
followed by the final script-completion log line and the process exits
with code zero. -/
theorem C1_csv_failure_exits_zero (env : Env) (h : env.csvOpenOk = false) :
    (pyMain env).rows = [] ∧ (pyMain env).csv = [] ∧
    (pyMain env).logs = [LogEvent.csvWriteError, LogEvent.scriptCompleted] ∧
    (pyMain env).exitCode = 0 := by
  simp [pyMain, h]

/-- Witness for C1 at the concrete failing-open environment. -/
theorem C1_csv_failure_witness :
    (pyMain envCsvFail).rows = [] ∧ (pyMain envCsvFail).csv = [] ∧
    (pyMain envCsvFail).logs = [LogEvent.csvWriteError, LogEvent.scriptCompleted] ∧
    (pyMain envCsvFail).exitCode = 0 :=
  C1_csv_failure_exits_zero envCsvFail rfl

/-- Claim C2, counterexample: in the three-ligand run envAbort the second
ligand's matched capture "-" makes float() raise, so only one row is
committed for three discovered, filtered work items. -/
theorem C2_row_completeness_counterexample :
    (pyMain envAbort).rows.length = 1 ∧
    (filterLigs envAbort.entries).length = 3 ∧
    (pyMain envAbort).rows.length ≠ (filterLigs envAbort.entries).length := by
  decide

/-- Claim C2, amended: provided the CSV opens, the directory exists, and no
item's processing raises an unhandled exception (every matched capture is
a valid float literal), the committed rows are in 1:1 correspondence with
the discovered, filtered work items, in discovery order, none skipped and
none duplicated. -/
theorem C2_row_completeness (env : Env) (h1 : env.csvOpenOk = true)
    (h2 : env.dirExists = true)
    (h3 : ∀ l ∈ filterLigs env.entries, (cellOf? (env.tool l)).isSome = true) :
    (pyMain env).rows.map Prod.fst = (filterLigs env.entries).map splitextRoot ∧
    (pyMain env).rows.length = (filterLigs env.entries).length := by
  have hmap : (runLoop (filterLigs env.entries) env.tool).rows.map Prod.fst =
      (filterLigs env.entries).map splitextRoot :=
    runLoop_rows_total env.tool (filterLigs env.entries) h3
  have hrows : (pyMain env).rows =
      (runLoop (filterLigs env.entries) env.tool).rows := by
    cases hab : (runLoop (filterLigs env.entries) env.tool).aborted <;>
      simp [pyMain, h1, h2, hab]
  rw [hrows]
  refine ⟨hmap, ?_⟩
  have hlen := congrArg List.length hmap
  simpa using hlen

/-- Witness for C2 at the two-ligand end-to-end environment. -/
theorem C2_row_completeness_witness :
    (pyMain envTwoGood).rows.map Prod.fst =
      (filterLigs envTwoGood.entries).map splitextRoot ∧
    (pyMain envTwoGood).rows.length = (filterLigs envTwoGood.entries).length :=
  C2_row_completeness envTwoGood rfl rfl (by decide)

/-- Claim C3: extraction takes the first capture group of the first line
matching the rank-1 score pattern and parses it as a number; on the sample
output whose rank-1 line is "1    -7.4   0.000   0.000" the score is -7.4
(the rational -74/10), and output with no matching line yields the
unparseable outcome, committed as an "N/A" row. -/
theorem C3_extraction_correctness :
    extractGroup vinaSampleOut = some "-7.4" ∧
    cellOf? (ToolRun.ok vinaSampleOut) = some (Cell.score (mkRat (-74) 10)) ∧
    (∀ out : String, extractGroup out = none →
      cellOf? (ToolRun.ok out) = some Cell.na) ∧
    (pyMain envNoMatch).rows = [("ligX", Cell.na)] := by
  refine ⟨by decide, by decide, ?_, by decide⟩
  intro out hout
  simp [cellOf?, hout]

/-- Witness for C3 at a concrete unparseable output. -/
theorem C3_extraction_correctness_witness :
    cellOf? (ToolRun.ok "vina: no poses generated\n") = some Cell.na :=
  C3_extraction_correctness.2.2.1 "vina: no poses generated\n" (by decide)

/-- Claim C4: every committed cell is exactly one of a numeric value, the
string "N/A", or the string "Error"; every committed row corresponds to
the filtered work item at the same index; and the cell matches the item's
outcome tier (tool failure gives Error, zero exit without a regex match
gives N/A, zero exit with a valid matched capture gives the parsed
score). -/
theorem C4_marker_exclusivity :
    (∀ c : Cell, (∃ q, cellToVal c = CellVal.num q) ∨
      cellToVal c = CellVal.str "N/A" ∨ cellToVal c = CellVal.str "Error") ∧
    (∀ (env : Env) (k : Nat) (nm : String) (c : Cell),
      (pyMain env).rows.get? k = some (nm, c) →
      ∃ lig, (filterLigs env.entries).get? k = some lig ∧
        nm = splitextRoot lig ∧ cellOf? (env.tool lig) = some c) ∧
    (∀ (run : ToolRun) (c : Cell), cellOf? run = some c →
      (∀ code out, run = ToolRun.err code out → c = Cell.error) ∧
      (∀ out, run = ToolRun.ok out → extractGroup out = none → c = Cell.na) ∧
      (∀ out g, run = ToolRun.ok out → extractGroup out = some g →
        pyFloatAccepts g = true ∧ c = Cell.score (pyFloatVal g))) := by
  refine ⟨?_, pyMain_rows_get?, cellOf?_tier⟩
  intro c
  cases c with
  | score q => exact Or.inl ⟨q, rfl⟩
  | na => exact Or.inr (Or.inl rfl)
  | error => exact Or.inr (Or.inr rfl)

/-- Witness for C4: the second row of the end-to-end run is the Error row
of the ligand whose tool invocation exited non-zero. -/
theorem C4_marker_exclusivity_witness :
    ∃ lig, (filterLigs envTwoGood.entries).get? 1 = some lig ∧
      "lig2" = splitextRoot lig ∧ cellOf? (envTwoGood.tool lig) = some Cell.error :=
  C4_marker_exclusivity.2.1 envTwoGood 1 "lig2" Cell.error (by decide)

/-- Claim C5, counterexample: the header actually written on line 100 is
"Ligand", "Best Affinity" (with a space), not "Ligand", "BestAffinity" as
the claim states; no write of the claimed header ever occurs. -/
theorem C5_header_counterexample :
    (pyMain envHeaderOnly).csv.get? 0 =
      some (CsvEvent.write [CellVal.str "Ligand", CellVal.str "Best Affinity"]) ∧
    (pyMain envHeaderOnly).csv.get? 0 ≠
      some (CsvEvent.write [CellVal.str "Ligand", CellVal.str "BestAffinity"]) ∧
    ∀ e ∈ (pyMain envHeaderOnly).csv,
      e ≠ CsvEvent.write [CellVal.str "Ligand", CellVal.str "BestAffinity"] := by
  decide

/-- Claim C5, amended: whenever the results table opens, the header row
"Ligand", "Best Affinity" is the very first CSV write, and no later CSV
event writes it again. -/
theorem C5_header_once (env : Env) (h : env.csvOpenOk = true) :
    (pyMain env).csv.get? 0 =
      some (CsvEvent.write [CellVal.str "Ligand", CellVal.str "Best Affinity"]) ∧
    ∀ k, k ≠ 0 → (pyMain env).csv.get? k ≠
      some (CsvEvent.write [CellVal.str "Ligand", CellVal.str "Best Affinity"]) := by
  show (pyMain env).csv.get? 0 = some (CsvEvent.write headerCells) ∧
    ∀ k, k ≠ 0 → (pyMain env).csv.get? k ≠ some (CsvEvent.write headerCells)
  by_cases hd : env.dirExists = true
  · have hrest := runLoop_csv_no_header env.tool (filterLigs env.entries)
    have hb := headerBlock_once _ hrest
    cases hab : (runLoop (filterLigs env.entries) env.tool).aborted <;>
      simpa [pyMain, h, hd, hab] using hb
  · have hd' : env.dirExists = false := by simpa using hd
    have hb := headerBlock_once [] (by intro e he; simp at he)
    simpa [pyMain, h, hd'] using hb

/-- Witness for C5 at the empty-directory environment. -/
theorem C5_header_once_witness :
    (pyMain envHeaderOnly).csv.get? 0 =
      some (CsvEvent.write [CellVal.str "Ligand", CellVal.str "Best Affinity"]) ∧
    (pyMain envHeaderOnly).csv.get? 3 ≠
      some (CsvEvent.write [CellVal.str "Ligand", CellVal.str "Best Affinity"]) :=
  ⟨(C5_header_once envHeaderOnly rfl).1,
   (C5_header_once envHeaderOnly rfl).2 3 (by decide)⟩

/-- Claim C6: when the results table opens but the ligand directory does
not exist, the process terminates with exit code 1; the missing-directory
message is the last thing logged, no row is written, and none of the
IOError handler, the generic handler, or the completion line runs
(sys.exit raises SystemExit, which except IOError and except Exception do
not catch). -/
theorem C6_missing_dir_fatal (env : Env) (h1 : env.csvOpenOk = true)
    (h2 : env.dirExists = false) :
    (pyMain env).exitCode = 1 ∧ (pyMain env).exitCode ≠ 0 ∧
    (pyMain env).rows = [] ∧
    (pyMain env).logs = [LogEvent.csvHeaderWritten, LogEvent.dirMissing] ∧
    LogEvent.csvWriteError ∉ (pyMain env).logs ∧
    LogEvent.unexpectedError ∉ (pyMain env).logs ∧
    LogEvent.scriptCompleted ∉ (pyMain env).logs := by
  simp [pyMain, h1, h2]

/-- Witness for C6 at the concrete missing-directory environment. -/
theorem C6_missing_dir_fatal_witness :
    (pyMain envDirMissing).exitCode = 1 ∧
    (pyMain envDirMissing).logs =
      [LogEvent.csvHeaderWritten, LogEvent.dirMissing] :=
  ⟨(C6_missing_dir_fatal envDirMissing rfl rfl).1,
   (C6_missing_dir_fatal envDirMissing rfl rfl).2.2.2.1⟩

/-- Claim C7: a blank grid-parameter input resolves to the silent default
0.0 at once; a non-numeric input is rejected and the prompt repeats; and
the prompt returns only through the blank-default path or the valid-float
path. -/
theorem C7_grid_prompt :
    (∀ (s : String) (rest : List String), pyStrip s = "" →
      get_grid_coordinate (s :: rest) = some GridValue.defaultZero) ∧
    (∀ (s : String) (rest : List String), pyStrip s ≠ "" →
      pyFloatAccepts s = false →
      get_grid_coordinate (s :: rest) = get_grid_coordinate rest) ∧
    (∀ (inputs : List String) (v : GridValue),
      get_grid_coordinate inputs = some v →
      (v = GridValue.defaultZero ∧ ∃ s ∈ inputs, pyStrip s = "") ∨
      (∃ s ∈ inputs, pyFloatAccepts s = true ∧ v = GridValue.parsed s)) := by
  refine ⟨?_, ?_, ?_⟩
  · intro s rest hs
    simp [get_grid_coordinate, hs]
  · intro s rest hs hf
    simp [get_grid_coordinate, hs, hf]
  · intro inputs
    induction inputs with
    | nil => intro v hv; simp [get_grid_coordinate] at hv
    | cons s rest ih =>
      intro v hv
      by_cases hs : pyStrip s = ""
      · simp [get_grid_coordinate, hs] at hv
        exact Or.inl ⟨hv.symm, s, by simp, hs⟩
      · by_cases hf : pyFloatAccepts s = true
        · simp [get_grid_coordinate, hs, hf] at hv
          exact Or.inr ⟨s, by simp, hf, hv.symm⟩
        · have hf' : pyFloatAccepts s = false := by simpa using hf
          simp only [get_grid_coordinate, hs, hf', if_false] at hv
          rcases ih v (by simpa using hv) with ⟨h1, s', hs', h2⟩ | ⟨s', hs', h2⟩
          · exact Or.inl ⟨h1, s', by simp [hs'], h2⟩
          · exact Or.inr ⟨s', by simp [hs'], h2⟩

/-- Witness for C7: blank input returns the default, and the rejected
input "abc" re-prompts. -/
theorem C7_grid_prompt_witness :
    get_grid_coordinate ["", "3.5"] = some GridValue.defaultZero ∧
    get_grid_coordinate ["abc", ""] = get_grid_coordinate [""] :=
  ⟨C7_grid_prompt.1 "" ["3.5"] (by decide),
   C7_grid_prompt.2.1 "abc" [""] (by decide) (by decide)⟩

/-- Claim C8: discovery keeps exactly the entries that end in ".pdbqt" and
do not contain "_docked"; in particular "ligandA_docked.pdbqt" and
"notes.txt" are excluded while "ligandA.pdbqt" is kept. -/
theorem C8_filter_correctness :
    (∀ (es : List String) (l : String),
      l ∈ filterLigs es ↔
        l ∈ es ∧ pyEndsWith l pdbqtExt = true ∧
          pySubstr dockedMarker l.data = false) ∧
    filterLigs ["ligandA_docked.pdbqt", "ligandA.pdbqt", "notes.txt"] =
      ["ligandA.pdbqt"] := by
  refine ⟨?_, by decide⟩
  intro es l
  simp [filterLigs, List.mem_filter, Bool.and_eq_true, Bool.not_eq_true',
    and_assoc]

/-- Witness for C8 at the three concrete file names of the claim. -/
theorem C8_filter_correctness_witness :
    "ligandA.pdbqt" ∈
      filterLigs ["ligandA_docked.pdbqt", "ligandA.pdbqt", "notes.txt"] :=
  (C8_filter_correctness.1 _ "ligandA.pdbqt").mpr (by decide)

/-- Claim C9: every CSV row write (header or data row of any kind) is
immediately followed in the event trace by a flush and then an fsync,
before any further CSV activity. -/
theorem C9_row_durability (env : Env) (k : Nat) (cells : List CellVal)
    (h : (pyMain env).csv.get? k = some (CsvEvent.write cells)) :
    (pyMain env).csv.get? (k + 1) = some CsvEvent.flush ∧
    (pyMain env).csv.get? (k + 2) = some CsvEvent.fsync :=
  chainOK_get (pyMain_chainOK env) k cells h

/-- Witness for C9 at the first data row of the end-to-end run. -/
theorem C9_row_durability_witness :
    (pyMain envTwoGood).csv.get? 4 = some CsvEvent.flush ∧
    (pyMain envTwoGood).csv.get? 5 = some CsvEvent.fsync :=
  C9_row_durability envTwoGood 3
    [CellVal.str "lig1", CellVal.num (mkRat (-82) 10)] (by decide)

/-- Claim C10: on output whose rank-1 line matches the pattern with the
capture "-", float() raises; the exception escapes the per-item handler
into the batch-level generic handler, no row is committed for that item,
the remaining items are never processed, and the process exits zero. -/
theorem C10_parse_abort :
    extractGroup "1 -\n" = some "-" ∧
    pyFloatAccepts "-" = false ∧
    cellOf? (ToolRun.ok "1 -\n") = none ∧
    filterLigs envAbort.entries = ["lig1.pdbqt", "lig2.pdbqt", "lig3.pdbqt"] ∧
    (pyMain envAbort).rows = [("lig1", Cell.score (mkRat (-74) 10))] ∧
    (pyMain envAbort).exitCode = 0 ∧
    (pyMain envAbort).logs =
      [LogEvent.csvHeaderWritten, LogEvent.processing "lig1",
       LogEvent.vinaOk "lig1", LogEvent.writtenScore "lig1" (mkRat (-74) 10),
       LogEvent.processing "lig2", LogEvent.vinaOk "lig2",
       LogEvent.unexpectedError, LogEvent.scriptCompleted] := by
  decide

end VinaScreen
